import Mathlib

/-!
Verification of the Scanlytic-Forensic-AI analysis pipeline
(classification → feature extraction → scoring), shallowly embedded from
the Python sources in `src/scanlytic`.  Files are modelled as lists of
byte values (`List Nat`), Python `float` scores as rationals, and the
Shannon-entropy computation over the reals.  Fallible operations return
`Except`.
-/

/-- Errors raised by `scanlytic.utils` file helpers (`exceptions.py`):
`InvalidFileError` for size-limit violations, `FileAccessError` for
unreadable files.  The carried string is the exception message. -/
inductive FileError where
  | invalidFile (msg : String)
  | fileAccess (msg : String)
deriving DecidableEq, Repr

/-- Embeds `file_utils.safe_read_file`.  The file is modelled by its byte
content; `maxSize` models the optional `max_size` argument (Python
truthiness: `None` or `0` disables the check).  Mirrors the source: when
the size check fails it raises `InvalidFileError`; otherwise `f.read()`
returns the WHOLE content — the function never truncates. -/
def safe_read_file (content : List Nat) (maxSize : Option Nat) :
    Except FileError (List Nat) :=
  let fileSize := content.length
  match maxSize with
  | none => Except.ok content
  | some m =>
    if m ≠ 0 ∧ fileSize > m then
      Except.error (FileError.invalidFile
        ("File size (" ++ toString fileSize ++
         " bytes) exceeds maximum allowed size (" ++ toString m ++ " bytes)"))
    else Except.ok content

/-- Python `bytes.startswith` / `str.startswith`, on lists. -/
def listStartsWith {α : Type} [BEq α] (hay needle : List α) : Bool :=
  hay.take needle.length == needle

/-- One insertion into a CPython `dict`: if the key is already present its
value is replaced in place (the key keeps its original position),
otherwise the pair is appended. -/
def dictInsert {α β : Type} [BEq α] (d : List (α × β)) (k : α) (v : β) :
    List (α × β) :=
  match d with
  | [] => [(k, v)]
  | (k₁, v₁) :: t =>
    if k₁ == k then (k₁, v) :: t else (k₁, v₁) :: dictInsert t k v

/-- A CPython `dict` literal: entries inserted left to right, duplicate
keys collapsing onto the first occurrence's position with the last
value. -/
def dictOfList {α β : Type} [BEq α] (l : List (α × β)) : List (α × β) :=
  l.foldl (fun d p => dictInsert d p.1 p.2) []

/-- The entries of `FileClassifier.MAGIC_SIGNATURES` (`classifier.py`
lines 29–62) in literal order, bytes written as decimal values.  Note the
duplicate keys: `\xcf\xfa\xed\xfe` appears twice (both `executable`) and
`PK\x03\x04` appears as `archive` (ZIP) and later as `document` (Office
Open XML). -/
def MAGIC_SIGNATURES_LITERAL : List (List Nat × String) :=
  [ ([77, 90], "executable"),
    ([127, 69, 76, 70], "executable"),
    ([207, 250, 237, 254], "executable"),
    ([254, 237, 250, 206], "executable"),
    ([207, 250, 237, 254], "executable"),
    ([80, 75, 3, 4], "archive"),
    ([80, 75, 5, 6], "archive"),
    ([80, 75, 7, 8], "archive"),
    ([82, 97, 114, 33, 26, 7], "archive"),
    ([31, 139], "archive"),
    ([66, 90, 104], "archive"),
    ([55, 122, 188, 175, 39, 28], "archive"),
    ([37, 80, 68, 70], "document"),
    ([208, 207, 17, 224, 161, 177, 26, 225], "document"),
    ([80, 75, 3, 4], "document"),
    ([255, 216, 255], "image"),
    ([137, 80, 78, 71, 13, 10, 26, 10], "image"),
    ([71, 73, 70, 56, 55, 97], "image"),
    ([71, 73, 70, 56, 57, 97], "image"),
    ([66, 77], "image"),
    ([73, 73, 42, 0], "image"),
    ([77, 77, 0, 42], "image"),
    ([35, 33, 47], "script") ]

/-- `FileClassifier.MAGIC_SIGNATURES` as the dict the literal evaluates
to under CPython semantics. -/
def MAGIC_SIGNATURES : List (List Nat × String) :=
  dictOfList MAGIC_SIGNATURES_LITERAL

/-- `FileClassifier.EXTENSION_CATEGORIES` (`classifier.py` lines 65–124);
all keys are distinct so the dict equals the literal. -/
def EXTENSION_CATEGORIES : List (String × String) :=
  [ ("exe", "executable"), ("dll", "executable"), ("so", "executable"),
    ("dylib", "executable"), ("com", "executable"),
    ("bat", "script"), ("cmd", "script"), ("sh", "script"),
    ("ps1", "script"),
    ("pdf", "document"), ("doc", "document"), ("docx", "document"),
    ("xls", "document"), ("xlsx", "document"), ("ppt", "document"),
    ("pptx", "document"), ("txt", "document"), ("rtf", "document"),
    ("odt", "document"),
    ("zip", "archive"), ("rar", "archive"), ("tar", "archive"),
    ("gz", "archive"), ("bz2", "archive"), ("7z", "archive"),
    ("tgz", "archive"),
    ("jpg", "image"), ("jpeg", "image"), ("png", "image"),
    ("gif", "image"), ("bmp", "image"), ("tiff", "image"),
    ("ico", "image"), ("svg", "image"),
    ("py", "script"), ("js", "script"), ("rb", "script"),
    ("pl", "script"), ("php", "script"), ("vbs", "script"),
    ("mp3", "media"), ("mp4", "media"), ("avi", "media"),
    ("mov", "media"), ("wmv", "media"), ("wav", "media"),
    ("flac", "media") ]

/-- Embeds `FileClassifier._classify_by_magic`: call
`safe_read_file(path, max_size=16)`, and on success return the category
of the first signature the header starts with; any exception is caught
and, like a failed match, yields `"unknown"`. -/
def classify_by_magic (content : List Nat) : String :=
  match safe_read_file content (some 16) with
  | Except.error _ => "unknown"
  | Except.ok header =>
    match MAGIC_SIGNATURES.find? (fun e => listStartsWith header e.1) with
    | some e => e.2
    | none => "unknown"

/-- Embeds `FileClassifier._classify_by_extension`:
`EXTENSION_CATEGORIES.get(extension, 'unknown')`. -/
def classify_by_extension (extension : String) : String :=
  ((EXTENSION_CATEGORIES.find? (fun e => e.1 == extension)).map
    (fun e => e.2)).getD "unknown"

/-- The category computation of `FileClassifier.classify` (lines
154–159): magic first, extension fallback when magic yields
`"unknown"`. -/
def classifyCategory (content : List Nat) (extension : String) : String :=
  let category := classify_by_magic content
  if category = "unknown" then classify_by_extension extension else category

/-- Modelled from the spec: the magic-number step as section 4.1 words
it — "read a bounded prefix (16 bytes) and match it … against a fixed
ordered table of magic byte sequences"; reading a bounded prefix of a
large file is not an error.  The corresponding source behaviour
(`safe_read_file(path, max_size=16)`) instead raises on files larger
than 16 bytes, which is what claims C1/C9 are about. -/
def classify_by_magic_spec (content : List Nat) : String :=
  match MAGIC_SIGNATURES.find?
      (fun e => listStartsWith (content.take 16) e.1) with
  | some e => e.2
  | none => "unknown"

/-- An 18-byte file beginning with the `MZ` signature, with an extension
unknown to the extension table. -/
def mzLargeContent : List Nat := [77, 90] ++ List.replicate 16 0

/-- The string-inventory dict produced by
`FeatureExtractor._extract_strings` (keys `count`, `samples`,
`suspicious_count`, `suspicious_patterns`); strings are modelled as
lists of characters. -/
structure StringInventory where
  count : Nat
  samples : List (List Char)
  suspiciousCount : Nat
  suspiciousPatterns : List (List Char)
deriving DecidableEq, Repr

/-- The feature dict produced by `FeatureExtractor.extract`.  `entropy`
and `strings` are optional because their keys are only present when the
corresponding configuration flag is set; the remaining keys are always
produced.  Hash digests and stat-derived strings are carried
verbatim. -/
structure FeatureSet where
  filePath : String
  fileName : String
  fileSize : Nat
  createdTime : String
  modifiedTime : String
  accessedTime : String
  permissions : String
  isHidden : Bool
  extension : String
  md5 : String
  sha1 : String
  sha256 : String
  entropy : Option ℚ
  strings : Option StringInventory
deriving DecidableEq, Repr

/-- The classification dict produced by `FileClassifier.classify`. -/
structure Classification where
  category : String
  fileType : String
  mimeType : String
  extension : String
deriving DecidableEq, Repr

/-- The scoring dict produced by `MaliciousScorer.score`. -/
structure ScoreResult where
  score : ℚ
  riskLevel : String
  factors : List (String × ℚ)
  isMalicious : Bool
  isHighRisk : Bool
deriving DecidableEq, Repr

/-- `MaliciousScorer.WEIGHTS` (`scorer.py` lines 25–32). -/
def WEIGHTS : List (String × ℚ) :=
  [ ("entropy", 20), ("suspicious_strings", 25), ("file_type", 20),
    ("file_size", 10), ("extension_mismatch", 15), ("hidden_file", 10) ]

/-- `self.WEIGHTS.get(factor, 0)`. -/
def weightOf (factor : String) : ℚ :=
  ((WEIGHTS.find? (fun e => e.1 == factor)).map (fun e => e.2)).getD 0

/-- `MaliciousScorer.RISK_LEVELS` (`scorer.py` lines 35–40): risk name
with inclusive lower and exclusive upper bound. -/
def RISK_LEVELS : List (String × ℚ × ℚ) :=
  [ ("low", (0, 25)), ("medium", (25, 50)), ("high", (50, 75)),
    ("critical", (75, 100)) ]

/-- Embeds `MaliciousScorer._score_entropy`; Python float literals such
as `7.5` are modelled as the corresponding rationals. -/
def score_entropy (entropy : ℚ) : ℚ :=
  if entropy > 7.5 then 100
  else if entropy > 7 then 80
  else if entropy > 6.5 then 60
  else if entropy > 6 then 40
  else if entropy > 5.5 then 20
  else 0

/-- `strings_data.get('suspicious_count', 0)`. -/
def suspiciousCountOf (stringsData : Option StringInventory) : Nat :=
  ((stringsData.map (fun s => s.suspiciousCount))).getD 0

/-- Embeds `MaliciousScorer._score_suspicious_strings`. -/
def score_suspicious_strings (stringsData : Option StringInventory) : ℚ :=
  let suspiciousCount := suspiciousCountOf stringsData
  if suspiciousCount ≥ 10 then 100
  else if suspiciousCount ≥ 7 then 80
  else if suspiciousCount ≥ 5 then 60
  else if suspiciousCount ≥ 3 then 40
  else if suspiciousCount ≥ 1 then 20
  else 0

/-- Embeds `MaliciousScorer._score_file_type`: the `risk_scores` dict
with default 20. -/
def score_file_type (category : String) : ℚ :=
  (([ ("executable", (60 : ℚ)), ("script", 50), ("document", 30),
      ("archive", 40), ("image", 10), ("media", 10),
      ("unknown", 20) ].find? (fun e => e.1 == category)).map
    (fun e => e.2)).getD 20

/-- Embeds `MaliciousScorer._score_file_size`. -/
def score_file_size (size : Nat) : ℚ :=
  if size < 1024 then 30
  else if size < 10240 then 20
  else if size > 100 * 1024 * 1024 then 30
  else 0

/-- Embeds `MaliciousScorer._score_extension_mismatch` on the
`extension` feature and classification `category`. -/
def score_extension_mismatch (extension category : String) : ℚ :=
  if extension = "txt" ∧ category = "executable" then 100
  else if extension = "jpg" ∧ category = "executable" then 100
  else if extension = "pdf" ∧ category = "executable" then 100
  else if (extension = "doc" ∨ extension = "docx" ∨ extension = "xls" ∨
      extension = "xlsx") ∧ category = "executable" then 80
  else if extension = "none" ∧ category = "executable" then 60
  else 0

/-- Embeds `MaliciousScorer._score_hidden_file`. -/
def score_hidden_file (isHidden : Bool) : ℚ :=
  if isHidden then 40 else 0

/-- Embeds `MaliciousScorer._calculate_total_score`: one pass over the
factor dict accumulating `total` (first component) and `total_weight`
(second); then normalization and clamping to [0, 100]. -/
def calculate_total_score (scores : List (String × ℚ)) : ℚ :=
  let acc := scores.foldl
    (fun (a : ℚ × ℚ) p =>
      (a.1 + p.2 * (weightOf p.1 / 100), a.2 + weightOf p.1)) (0, 0)
  if acc.2 = 0 then 0 else min 100 (max 0 (acc.1 / acc.2 * 100))

/-- Embeds `MaliciousScorer._determine_risk_level`: first band of
`RISK_LEVELS` with `min_score <= score < max_score`, else
`'critical'`. -/
def determine_risk_level (score : ℚ) : String :=
  match RISK_LEVELS.find? (fun e => decide (e.2.1 ≤ score ∧ score < e.2.2)) with
  | some e => e.1
  | none => "critical"

/-- Python `round(x, 2)` (the tie-to-even of binary floats modelled as
round-half-up; no value in this development sits on a tie). -/
def round2 (x : ℚ) : ℚ := ((round (x * 100) : ℤ) : ℚ) / 100

/-- Embeds `MaliciousScorer.score` (thresholds are the constructor
arguments, default 50 and 75): builds the factor dict in insertion
order, computes the weighted total, risk level and threshold flags. -/
def MaliciousScorer.score (maliciousThreshold highRiskThreshold : ℚ)
    (features : FeatureSet) (classification : Classification) : ScoreResult :=
  let scores :=
    [ ("entropy", score_entropy (features.entropy.getD 0)),
      ("suspicious_strings", score_suspicious_strings features.strings),
      ("file_type", score_file_type classification.category),
      ("file_size", score_file_size features.fileSize),
      ("extension_mismatch",
        score_extension_mismatch features.extension classification.category),
      ("hidden_file", score_hidden_file features.isHidden) ]
  let totalScore := calculate_total_score scores
  { score := round2 totalScore,
    riskLevel := determine_risk_level totalScore,
    factors := scores,
    isMalicious := decide (totalScore ≥ maliciousThreshold),
    isHighRisk := decide (totalScore ≥ highRiskThreshold) }

/-- A concrete high-entropy, hidden, five-suspicious-strings feature set
used to witness the scoring scenario. -/
def scenarioFeatureSet : FeatureSet where
  filePath := "/tmp/a"
  fileName := ".a"
  fileSize := 2048
  createdTime := "t"
  modifiedTime := "t"
  accessedTime := "t"
  permissions := "0o100644"
  isHidden := true
  extension := "txt"
  md5 := "d"
  sha1 := "d"
  sha256 := "d"
  entropy := some 7.8
  strings := some { count := 5, samples := [], suspiciousCount := 5,
                    suspiciousPatterns := [] }

/-- A concrete `executable` classification used to witness the scoring
scenario. -/
def scenarioClassification : Classification where
  category := "executable"
  fileType := "PE executable (Windows)"
  mimeType := "unknown"
  extension := "txt"

/-- The Shannon-entropy sum of `FeatureExtractor._calculate_entropy`
(lines 173–179): byte-value frequency histogram, `−Σ p·log2(p)` over the
byte values that occur (absent values contribute the zero term). -/
noncomputable def shannonEntropy (data : List Nat) : ℝ :=
  Finset.sum (Finset.range 256) fun b =>
    if data.count b = 0 then 0
    else -(((data.count b : ℝ) / (data.length : ℝ)) *
      Real.logb 2 ((data.count b : ℝ) / (data.length : ℝ)))

/-- Python `round(x, 3)` (ties modelled as round-half-up; no value in
this development sits on a tie). -/
noncomputable def roundTo3 (x : ℝ) : ℚ := ((round (x * 1000) : ℤ) : ℚ) / 1000

/-- Embeds `FeatureExtractor._calculate_entropy`: `read_size =
min(file_size, 1 MiB)`, then `safe_read_file(path, max_size=read_size)`;
any exception is caught and yields `0.0`; empty data yields `0.0`;
otherwise the rounded Shannon entropy of the returned data. -/
noncomputable def calculate_entropy (content : List Nat) : ℚ :=
  match safe_read_file content (some (min content.length (1024 * 1024))) with
  | Except.error _ => 0
  | Except.ok data =>
    if data.isEmpty then 0 else roundTo3 (shannonEntropy data)

/-- Modelled from the spec: "read min(file size, 1 MiB) bytes; compute
byte-value frequency histogram …; round to 3 decimal places; empty data
→ 0.0" — the entropy of the first 1 MiB of the content.  This is the
behaviour claim C2 ascribes to the code. -/
noncomputable def entropy_spec (content : List Nat) : ℚ :=
  if (content.take (1024 * 1024)).isEmpty then 0
  else roundTo3 (shannonEntropy (content.take (1024 * 1024)))

/-- A file of 1 MiB + 1 bytes: 524288 zero bytes then 524289 one
bytes.  Its first 1 MiB holds the two byte values in equal counts, so
the spec entropy of the bounded prefix is exactly 1 bit. -/
def overMiBContent : List Nat :=
  List.replicate 524288 0 ++ List.replicate 524289 1

/-- Python `str.lower` on an ASCII character (the extracted strings are
always ASCII, produced by `decode('ascii')`). -/
def lowerChar (c : Char) : Char :=
  if 65 ≤ c.toNat ∧ c.toNat ≤ 90 then Char.ofNat (c.toNat + 32) else c

/-- `s.lower()` on an ASCII string modelled as a character list. -/
def lowerStr (s : List Char) : List Char := s.map lowerChar

/-- Python substring containment `needle in hay`. -/
def strHasSub (hay needle : List Char) : Bool :=
  match hay with
  | [] => needle.isEmpty
  | c :: t => listStartsWith (c :: t) needle || strHasSub t needle

/-- The `patterns` list of
`FeatureExtractor._detect_suspicious_patterns` (`extractor.py` lines
267–276), in source order. -/
def SUSPICIOUS_PATTERNS : List (List Char) :=
  [ "cmd.exe".data, "powershell".data, "sh".data, "bash".data,
    "http://".data, "https://".data,
    "registry".data, "regedit".data,
    "download".data, "upload".data,
    "keylog".data, "password".data, "credential".data,
    "encrypt".data, "decrypt".data,
    "admin".data, "root".data,
    "backdoor".data, "trojan".data, "virus".data ]

/-- The inner loop of `_detect_suspicious_patterns` for one string: the
string is appended on the first keyword contained in its lower-cased
form (the `break` makes the effect that of an existence check). -/
def matchesSuspicious (s : List Char) : Bool :=
  SUSPICIOUS_PATTERNS.any (fun p => strHasSub (lowerStr s) p)

/-- Embeds `FeatureExtractor._detect_suspicious_patterns`: accumulate
every string some keyword matches, then cap the result at 20
(`suspicious[:20]`). -/
def detect_suspicious_patterns (strings : List (List Char)) :
    List (List Char) :=
  (strings.foldl
    (fun acc s => if matchesSuspicious s then acc ++ [s] else acc)
    []).take 20

/-- Membership in Python's `string.printable` for a byte: ASCII 32–126
plus the whitespace control bytes 9–13. -/
def isPrintableByte (b : Nat) : Bool :=
  (32 ≤ b && b ≤ 126) || (9 ≤ b && b ≤ 13)

/-- The run-accumulation loop of `FeatureExtractor._extract_strings`:
consecutive printable bytes form a run; a run is flushed when a
non-printable byte is hit or input ends, and kept only when its length
is at least `minLen`.  Printable bytes are valid ASCII, so
`decode('ascii')` never fails and is modelled as byte-to-character
conversion. -/
def extractRuns (minLen : Nat) (data : List Nat) : List (List Char) :=
  let step := data.foldl
    (fun (acc : List (List Char) × List Nat) b =>
      if isPrintableByte b then (acc.1, acc.2 ++ [b])
      else if acc.2.length ≥ minLen then
        (acc.1 ++ [acc.2.map (fun v => Char.ofNat v)], [])
      else (acc.1, []))
    ([], [])
  if step.2.length ≥ minLen then
    step.1 ++ [step.2.map (fun v => Char.ofNat v)]
  else step.1

/-- Embeds `FeatureExtractor._extract_strings`: read
`min(file_size, 1 MiB)` through `safe_read_file` (any exception yields
the empty inventory), cap found strings at 100, expose the first 10 as
samples, and attach the suspicious-pattern subset. -/
def extract_strings (minLen : Nat) (content : List Nat) : StringInventory :=
  match safe_read_file content (some (min content.length (1024 * 1024))) with
  | Except.error _ =>
    { count := 0, samples := [], suspiciousCount := 0,
      suspiciousPatterns := [] }
  | Except.ok data =>
    let found := (extractRuns minLen data).take 100
    let suspicious := detect_suspicious_patterns found
    { count := found.length, samples := found.take 10,
      suspiciousCount := suspicious.length,
      suspiciousPatterns := suspicious }

/-- One file as the pipeline sees it: the path-derived attributes, the
byte content, the stat-derived metadata strings, the best-effort MIME
type the `mimetypes` library reports (already defaulted to
`"unknown"`), and whether `validate_file_path` succeeds
(exists ∧ regular ∧ readable). -/
structure FileData where
  path : String
  name : String
  content : List Nat
  extension : String
  mimeType : String
  createdTime : String
  modifiedTime : String
  accessedTime : String
  permissions : String
  readable : Bool
deriving DecidableEq, Repr

/-- The configuration consumed by `ForensicAnalyzer.__init__`, with the
documented defaults; digest computation is carried as an opaque
deterministic function from algorithm name and content to the hex
digest. -/
structure AnalyzerConfig where
  extractStrings : Bool := true
  stringMinLength : Nat := 4
  calculateEntropy : Bool := true
  maliciousThreshold : ℚ := 50
  highRiskThreshold : ℚ := 75
  hashFn : String → List Nat → String

/-- Python `str.upper` on an ASCII character. -/
def upperChar (c : Char) : Char :=
  if 97 ≤ c.toNat ∧ c.toNat ≤ 122 then Char.ofNat (c.toNat - 32) else c

/-- `s.upper()` on an ASCII string. -/
def upperStr (s : String) : String := String.mk (s.data.map upperChar)

/-- Embeds `FileClassifier._identify_executable_type`: reads a 64-byte
prefix through `safe_read_file` (failing for larger files, the
exception swallowed into `"Unknown executable"`). -/
def identify_executable_type (content : List Nat) : String :=
  match safe_read_file content (some 64) with
  | Except.error _ => "Unknown executable"
  | Except.ok header =>
    if listStartsWith header [77, 90] then "PE executable (Windows)"
    else if listStartsWith header [127, 69, 76, 70] then
      "ELF executable (Linux/Unix)"
    else if header.take 4 == [207, 250, 237, 254] ||
        header.take 4 == [254, 237, 250, 206] then
      "Mach-O executable (macOS)"
    else "Unknown executable"

/-- Embeds `FileClassifier._determine_file_type`. -/
def determine_file_type (content : List Nat) (category extension : String) :
    String :=
  if category = "executable" then identify_executable_type content
  else if category = "document" then
    (if extension ≠ "" then upperStr extension ++ " document"
     else "Document")
  else if category = "archive" then
    (if extension ≠ "" then upperStr extension ++ " archive" else "Archive")
  else if category = "image" then
    (if extension ≠ "" then upperStr extension ++ " image" else "Image")
  else if category = "script" then
    (if extension ≠ "" then upperStr extension ++ " script" else "Script")
  else if category = "media" then
    (if extension ≠ "" then upperStr extension ++ " media" else "Media")
  else "Unknown file type"

/-- Embeds `FileClassifier.classify` for a readable file: category from
magic with extension fallback, specific type label, MIME type, and the
extension defaulted to `"none"` when absent. -/
def classify (fd : FileData) : Classification :=
  let category := classifyCategory fd.content fd.extension
  { category := category,
    fileType := determine_file_type fd.content category fd.extension,
    mimeType := fd.mimeType,
    extension := if fd.extension = "" then "none" else fd.extension }

/-- `path.name.startswith('.')`. -/
def nameIsHidden (name : String) : Bool := listStartsWith name.data ".".data

/-- Embeds `FeatureExtractor.extract` for a readable file: static
properties, the three digests, and the optional entropy and string
inventory according to the configuration flags. -/
noncomputable def extract (cfg : AnalyzerConfig) (fd : FileData) :
    FeatureSet :=
  { filePath := fd.path, fileName := fd.name,
    fileSize := fd.content.length,
    createdTime := fd.createdTime, modifiedTime := fd.modifiedTime,
    accessedTime := fd.accessedTime, permissions := fd.permissions,
    isHidden := nameIsHidden fd.name,
    extension := if fd.extension = "" then "none" else fd.extension,
    md5 := cfg.hashFn "md5" fd.content,
    sha1 := cfg.hashFn "sha1" fd.content,
    sha256 := cfg.hashFn "sha256" fd.content,
    entropy :=
      if cfg.calculateEntropy then some (calculate_entropy fd.content)
      else none,
    strings :=
      if cfg.extractStrings then
        some (extract_strings cfg.stringMinLength fd.content)
      else none }

/-- The per-file result dict of `ForensicAnalyzer.analyze_file`. -/
structure AnalysisRecord where
  filePath : String
  fileName : String
  classification : Classification
  features : FeatureSet
  scoring : ScoreResult
  analysisVersion : String
deriving DecidableEq, Repr

/-- The successful payload of `analyze_file`. -/
noncomputable def okRecord (cfg : AnalyzerConfig) (fd : FileData) :
    AnalysisRecord :=
  { filePath := fd.path, fileName := fd.name,
    classification := classify fd,
    features := extract cfg fd,
    scoring := MaliciousScorer.score cfg.maliciousThreshold
      cfg.highRiskThreshold (extract cfg fd) (classify fd),
    analysisVersion := "0.1.0" }

/-- The `str(e)` of the `FileAnalysisError` raised by `analyze_file` for
an unreadable file: the wrapper text plus the underlying
`FileAccessError` cause. -/
def analyzeFailMessage (path : String) : String :=
  "Failed to analyze file " ++ path ++ ": " ++
    "File is not readable: " ++ path

/-- Embeds `ForensicAnalyzer.analyze_file`: validate the path (the only
failing stage for a file the orchestrator can stat), then classify,
extract and score, packaging the result dict. -/
noncomputable def analyze_file (cfg : AnalyzerConfig) (fd : FileData) :
    Except String AnalysisRecord :=
  if fd.readable then Except.ok (okRecord cfg fd)
  else Except.error (analyzeFailMessage fd.path)

/-- `dist[k] = dist.get(k, 0) + 1`. -/
def dictIncr (d : List (String × Nat)) (k : String) : List (String × Nat) :=
  dictInsert d k (((d.find? (fun e => e.1 == k)).map (fun e => e.2)).getD 0 + 1)

/-- The summary dict of `ForensicAnalyzer._generate_summary`. -/
structure Summary where
  totalFiles : Nat
  riskDistribution : List (String × Nat)
  categoryDistribution : List (String × Nat)
  averageScore : ℚ
  highRiskFiles : Nat
deriving DecidableEq, Repr

/-- Embeds `ForensicAnalyzer._generate_summary`: empty input yields the
empty summary; otherwise the risk histogram (seeded with the four
levels), the category histogram, the rounded mean score and the
high-risk count, all over the given results. -/
def generate_summary (results : List AnalysisRecord) : Summary :=
  if results.isEmpty then
    { totalFiles := 0, riskDistribution := [],
      categoryDistribution := [], averageScore := 0, highRiskFiles := 0 }
  else
    { totalFiles := results.length,
      riskDistribution := results.foldl
        (fun d r => dictIncr d r.scoring.riskLevel)
        [("low", 0), ("medium", 0), ("high", 0), ("critical", 0)],
      categoryDistribution := results.foldl
        (fun d r => dictIncr d r.classification.category) [],
      averageScore := round2
        ((results.foldl (fun t r => t + r.scoring.score) 0) /
          (results.length : ℚ)),
      highRiskFiles := results.foldl
        (fun n r => if r.scoring.isHighRisk then n + 1 else n) 0 }

/-- The directory-level result dict of
`ForensicAnalyzer.analyze_directory`. -/
structure DirectoryResult where
  directory : String
  totalFiles : Nat
  errors : Nat
  summary : Summary
  results : List AnalysisRecord
  errorDetails : List (String × String)

/-- Embeds `ForensicAnalyzer.analyze_directory` over the regular files
the enumeration yields: each file is analyzed independently, failures
are collected as `{'file': path, 'error': str(e)}` entries, and the
summary is generated from the successful results only. -/
noncomputable def analyze_directory (cfg : AnalyzerConfig)
    (dirPath : String) (files : List FileData) : DirectoryResult :=
  let acc := files.foldl
    (fun (a : List AnalysisRecord × List (String × String)) f =>
      match analyze_file cfg f with
      | Except.ok r => (a.1 ++ [r], a.2)
      | Except.error e => (a.1, a.2 ++ [(f.path, e)]))
    ([], [])
  { directory := dirPath, totalFiles := acc.1.length,
    errors := acc.2.length, summary := generate_summary acc.1,
    results := acc.1, errorDetails := acc.2 }

/-- A concrete readable file used by the pipeline witnesses. -/
def plainFile : FileData where
  path := "/tmp/f"
  name := "f"
  content := [77, 90]
  extension := "exe"
  mimeType := "unknown"
  createdTime := "t"
  modifiedTime := "t"
  accessedTime := "t"
  permissions := "0o100644"
  readable := true

/-- A concrete unreadable file used by the pipeline witnesses. -/
def unreadableFile : FileData where
  path := "/tmp/bad"
  name := "bad"
  content := []
  extension := ""
  mimeType := "unknown"
  createdTime := "t"
  modifiedTime := "t"
  accessedTime := "t"
  permissions := "0o100000"
  readable := false

/-- A concrete default configuration used by the pipeline witnesses. -/
def defaultConfig : AnalyzerConfig where
  hashFn := fun _ _ => "digest"

lemma safe_read_ok (content : List Nat) (m : Nat) (h : content.length ≤ m) :
    safe_read_file content (some m) = Except.ok content := by
  unfold safe_read_file
  have hc : ¬ (m ≠ 0 ∧ content.length > m) := by omega
  simp [hc]

lemma safe_read_err (content : List Nat) (m : Nat) (h0 : 0 < m)
    (h : m < content.length) :
    ∃ msg, safe_read_file content (some m) =
      Except.error (FileError.invalidFile msg) := by
  unfold safe_read_file
  have hc : m ≠ 0 ∧ content.length > m := by omega
  simp [hc]

lemma round_mono' {x y : ℚ} (h : x ≤ y) : round x ≤ round y := by
  rw [round_eq, round_eq]
  exact Int.floor_mono (by linarith)

lemma round2_ge {x : ℚ} {a : ℤ} (h : (a : ℚ) ≤ x) : (a : ℚ) ≤ round2 x := by
  unfold round2
  have h2 := round_mono'
    (show ((a * 100 : ℤ) : ℚ) ≤ x * 100 by push_cast; linarith)
  rw [round_intCast] at h2
  have h3 : ((a * 100 : ℤ) : ℚ) ≤ ((round (x * 100) : ℤ) : ℚ) := by
    exact_mod_cast h2
  push_cast at h3
  linarith

lemma round2_le {x : ℚ} {b : ℤ} (h : x ≤ (b : ℚ)) : round2 x ≤ (b : ℚ) := by
  unfold round2
  have h2 := round_mono'
    (show x * 100 ≤ ((b * 100 : ℤ) : ℚ) by push_cast; linarith)
  rw [round_intCast] at h2
  have h3 : ((round (x * 100) : ℤ) : ℚ) ≤ ((b * 100 : ℤ) : ℚ) := by
    exact_mod_cast h2
  push_cast at h3
  linarith

lemma weightOf_entropy : weightOf "entropy" = 20 := rfl

lemma weightOf_suspicious : weightOf "suspicious_strings" = 25 := rfl

lemma weightOf_file_type : weightOf "file_type" = 20 := rfl

lemma weightOf_file_size : weightOf "file_size" = 10 := rfl

lemma weightOf_mismatch : weightOf "extension_mismatch" = 15 := rfl

lemma weightOf_hidden : weightOf "hidden_file" = 10 := rfl

/-- The single accumulation pass of `_calculate_total_score` over the six
factors of `score`, in closed form: the weights sum to 100, so the
normalization divides by 100 and multiplies back by 100, leaving the
weighted sum divided by 100, clamped. -/
lemma calculate_total_score_eq (e ss ft fs em hf : ℚ) :
    calculate_total_score
      [ ("entropy", e), ("suspicious_strings", ss), ("file_type", ft),
        ("file_size", fs), ("extension_mismatch", em),
        ("hidden_file", hf) ] =
      min 100 (max 0 ((e * 20 + ss * 25 + ft * 20 + fs * 10 + em * 15 +
        hf * 10) / 100)) := by
  unfold calculate_total_score
  simp only [List.foldl, weightOf_entropy, weightOf_suspicious,
    weightOf_file_type, weightOf_file_size, weightOf_mismatch,
    weightOf_hidden]
  norm_num
  congr 1
  congr 1
  ring

lemma score_file_size_cases (n : Nat) :
    score_file_size n = 0 ∨ score_file_size n = 20 ∨
    score_file_size n = 30 := by
  unfold score_file_size
  split_ifs <;> simp

lemma score_extension_mismatch_cases (e c : String) :
    score_extension_mismatch e c = 0 ∨ score_extension_mismatch e c = 60 ∨
    score_extension_mismatch e c = 80 ∨
    score_extension_mismatch e c = 100 := by
  unfold score_extension_mismatch
  split_ifs <;> simp

lemma overMiB_length : overMiBContent.length = 1048577 := by
  show (List.replicate 524288 0 ++ List.replicate 524289 1).length = 1048577
  rw [List.length_append, List.length_replicate, List.length_replicate]

lemma overMiB_take : overMiBContent.take (1024 * 1024) =
    List.replicate 524288 0 ++ List.replicate 524288 1 := by
  show (List.replicate 524288 0 ++
    List.replicate 524289 1).take (1024 * 1024) = _
  rw [List.take_append_eq_append_take, List.length_replicate,
    List.take_replicate, List.take_replicate]
  norm_num

lemma halfCount (b : Nat) :
    (List.replicate 524288 0 ++ List.replicate 524288 1).count b =
      (if 0 = b then 524288 else 0) + (if 1 = b then 524288 else 0) := by
  rw [List.count_append, List.count_replicate, List.count_replicate]
  simp only [beq_iff_eq]

lemma halfLength :
    (List.replicate 524288 0 ++
      List.replicate 524288 1).length = 1048576 := by
  rw [List.length_append, List.length_replicate, List.length_replicate]

lemma halfNotEmpty :
    ¬ ((List.replicate 524288 0 ++
      List.replicate 524288 1).isEmpty = true) := by
  intro h
  rw [List.isEmpty_eq_true, List.append_eq_nil] at h
  have h2 := congrArg List.length h.1
  rw [List.length_replicate, List.length_nil] at h2
  exact absurd h2 (by norm_num)

/-- Any file strictly larger than 1 MiB makes `_calculate_entropy`
return `0.0`: `safe_read_file` raises because `read_size < file_size`,
and the handler swallows the exception. -/
lemma calculate_entropy_over_limit (content : List Nat)
    (h : 1024 * 1024 < content.length) : calculate_entropy content = 0 := by
  unfold calculate_entropy
  have h1 : min content.length (1024 * 1024) = 1024 * 1024 := by omega
  obtain ⟨msg, hmsg⟩ := safe_read_err content (1024 * 1024) (by norm_num) h
  rw [h1, hmsg]

/-- Shannon entropy of data holding two byte values in equal counts is
exactly one bit. -/
lemma shannon_two_uniform :
    shannonEntropy (List.replicate 524288 0 ++
      List.replicate 524288 1) = 1 := by
  unfold shannonEntropy
  have hterm : ∀ b ∈ Finset.range 256,
      (if (List.replicate 524288 0 ++
          List.replicate 524288 1).count b = 0 then (0:ℝ)
       else -((((List.replicate 524288 0 ++
           List.replicate 524288 1).count b : ℝ) /
           ((List.replicate 524288 0 ++
           List.replicate 524288 1).length : ℝ)) *
         Real.logb 2 (((List.replicate 524288 0 ++
           List.replicate 524288 1).count b : ℝ) /
           ((List.replicate 524288 0 ++
           List.replicate 524288 1).length : ℝ)))) =
      (if b = 0 then (1:ℝ)/2 else 0) + (if b = 1 then (1:ℝ)/2 else 0) := by
    intro b _
    rcases eq_or_ne b 0 with rfl | hb0
    · rw [halfCount 0, halfLength]
      norm_num
      rw [show ((1:ℝ)/2) = (2:ℝ)⁻¹ by norm_num, Real.logb_inv,
        Real.logb_self_eq_one (by norm_num : (1:ℝ) < 2)]
      norm_num
    · rcases eq_or_ne b 1 with rfl | hb1
      · rw [halfCount 1, halfLength]
        norm_num
        rw [show ((1:ℝ)/2) = (2:ℝ)⁻¹ by norm_num, Real.logb_inv,
          Real.logb_self_eq_one (by norm_num : (1:ℝ) < 2)]
        norm_num
      · rw [halfCount b]
        simp [hb0, hb1, Ne.symm hb0, Ne.symm hb1]
  rw [Finset.sum_congr rfl hterm]
  rw [Finset.sum_add_distrib]
  rw [Finset.sum_ite_eq' (Finset.range 256) 0 (fun _ => (1:ℝ)/2),
    Finset.sum_ite_eq' (Finset.range 256) 1 (fun _ => (1:ℝ)/2)]
  norm_num

/-- C1: the claim says magic-number matching works on a bounded 16-byte
prefix for files of any size, so every file beginning with `MZ` is
classified `executable`.  The code instead calls
`safe_read_file(path, max_size=16)`, which raises `InvalidFileError` for
any file larger than 16 bytes; the exception is swallowed and magic
classification yields `unknown`.  At the failing input — an 18-byte file
starting with `MZ` and extension `xyz` — the code returns `"unknown"`
although the prefix matches the `MZ` signature of the table and the
spec-modelled bounded-prefix matcher returns `"executable"`. -/
theorem classify_magic_fails_beyond_16_bytes :
    classifyCategory mzLargeContent "xyz" = "unknown" ∧
    listStartsWith mzLargeContent [77, 90] = true ∧
    classify_by_magic_spec mzLargeContent = "executable" := by
  decide

/-- C3 counterexample: the claim says a file (of at most 16 bytes)
beginning with `PK\x03\x04` is categorized `archive` because the ZIP
entry precedes the Office Open XML entry.  On the 4-byte input
`[80, 75, 3, 4]` the magic classification is not `"archive"`. -/
theorem zip_magic_not_archive :
    ¬ classify_by_magic [80, 75, 3, 4] = "archive" := by
  decide

/-- C3 amended: `MAGIC_SIGNATURES` is a Python dict literal, so the
duplicated key `PK\x03\x04` collapses onto a single entry — at the ZIP
entry's position but with the later Office-Open-XML value — and every
file of at most 16 bytes whose content begins with `PK\x03\x04` is
categorized `document` by magic classification. -/
theorem zip_magic_resolves_to_document :
    ∀ content : List Nat, listStartsWith content [80, 75, 3, 4] = true →
      content.length ≤ 16 → classify_by_magic content = "document" := by
  intro content hstart hlen
  have h4 : content.take 4 = [80, 75, 3, 4] := by
    simpa [listStartsWith] using hstart
  obtain ⟨rest, hrest⟩ : ∃ rest, content = 80 :: 75 :: 3 :: 4 :: rest := by
    refine ⟨content.drop 4, ?_⟩
    conv_lhs => rw [← List.take_append_drop 4 content]
    rw [h4]
    rfl
  subst hrest
  unfold classify_by_magic
  rw [safe_read_ok _ _ (by simpa using hlen)]
  rfl

/-- Witness for `zip_magic_resolves_to_document` at the concrete 4-byte
ZIP header. -/
theorem zip_magic_resolves_to_document_witness :
    classify_by_magic [80, 75, 3, 4] = "document" :=
  zip_magic_resolves_to_document [80, 75, 3, 4] (by decide) (by decide)

/-- C9: `safe_read_file` with a positive `max_size` never truncates: a
successful read always returns the complete content, a file strictly
larger than `max_size` raises `InvalidFileError`, and a file within the
limit is returned whole. -/
theorem safe_read_file_never_truncates :
    ∀ (content : List Nat) (m : Nat), 0 < m →
      ((∀ r, safe_read_file content (some m) = Except.ok r → r = content) ∧
       (content.length > m → ∃ msg, safe_read_file content (some m) =
          Except.error (FileError.invalidFile msg)) ∧
       (content.length ≤ m →
          safe_read_file content (some m) = Except.ok content)) := by
  intro content m hm
  refine ⟨?_, fun h => safe_read_err content m hm h,
    fun h => safe_read_ok content m h⟩
  intro r hr
  unfold safe_read_file at hr
  by_cases h : m ≠ 0 ∧ content.length > m
  · simp [h] at hr
  · simp [h] at hr
    exact hr.symm

/-- Witness for `safe_read_file_never_truncates`: a 3-byte file read
with limit 2 errors, a 2-byte file read with limit 5 is returned
whole. -/
theorem safe_read_file_never_truncates_witness :
    (∃ msg, safe_read_file [1, 2, 3] (some 2) =
      Except.error (FileError.invalidFile msg)) ∧
    safe_read_file [1, 2] (some 5) = Except.ok [1, 2] :=
  ⟨(safe_read_file_never_truncates [1, 2, 3] 2 (by decide)).2.1 (by decide),
   (safe_read_file_never_truncates [1, 2] 5 (by decide)).2.2 (by decide)⟩

/-- C4: for all feature and classification inputs, the total score of
`MaliciousScorer.score` equals the weighted sum of the six sub-scores
(entropy·20 + suspicious_strings·25 + file_type·20 + file_size·10 +
extension_mismatch·15 + hidden_file·10, divided by 100) clamped to
[0, 100]; hence `0 ≤ score ≤ 100` always holds. -/
theorem total_score_weighted_sum_clamped :
    ∀ (mt hrt : ℚ) (f : FeatureSet) (c : Classification),
      (MaliciousScorer.score mt hrt f c).score =
        round2 (min 100 (max 0 (
          (score_entropy (f.entropy.getD 0) * 20 +
           score_suspicious_strings f.strings * 25 +
           score_file_type c.category * 20 +
           score_file_size f.fileSize * 10 +
           score_extension_mismatch f.extension c.category * 15 +
           score_hidden_file f.isHidden * 10) / 100))) ∧
      0 ≤ (MaliciousScorer.score mt hrt f c).score ∧
      (MaliciousScorer.score mt hrt f c).score ≤ 100 := by
  intro mt hrt f c
  show round2 (calculate_total_score _) = _ ∧
    (0:ℚ) ≤ round2 (calculate_total_score _) ∧
    round2 (calculate_total_score _) ≤ 100
  rw [calculate_total_score_eq]
  refine ⟨rfl, ?_, ?_⟩
  · have h0 : (0:ℚ) ≤ min 100 (max 0 ((score_entropy (f.entropy.getD 0) * 20 +
        score_suspicious_strings f.strings * 25 +
        score_file_type c.category * 20 +
        score_file_size f.fileSize * 10 +
        score_extension_mismatch f.extension c.category * 15 +
        score_hidden_file f.isHidden * 10) / 100)) :=
      le_min (by norm_num) (le_max_left 0 _)
    have h1 := round2_ge (a := 0) (by exact_mod_cast h0)
    simpa using h1
  · have h0 : min (100:ℚ) (max 0 ((score_entropy (f.entropy.getD 0) * 20 +
        score_suspicious_strings f.strings * 25 +
        score_file_type c.category * 20 +
        score_file_size f.fileSize * 10 +
        score_extension_mismatch f.extension c.category * 15 +
        score_hidden_file f.isHidden * 10) / 100)) ≤ 100 := min_le_left _ _
    have h1 := round2_le (b := 100) (by exact_mod_cast h0)
    simpa using h1

/-- C5: with default thresholds, every feature set with entropy 7.8,
suspicious-string count 5 and hidden flag true, classified `executable`,
yields a total score strictly above 50 and `is_malicious = true`,
whatever the file size and extension are. -/
theorem high_entropy_executable_is_malicious :
    ∀ (f : FeatureSet) (c : Classification),
      f.entropy = some 7.8 → suspiciousCountOf f.strings = 5 →
      f.isHidden = true → c.category = "executable" →
      50 < (MaliciousScorer.score 50 75 f c).score ∧
      (MaliciousScorer.score 50 75 f c).isMalicious = true := by
  intro f c he hs hh hc
  have e1 : score_entropy (f.entropy.getD 0) = 100 := by
    rw [he]
    norm_num [score_entropy]
  have e2 : score_suspicious_strings f.strings = 60 := by
    unfold score_suspicious_strings
    rw [hs]
    norm_num
  have e3 : score_file_type c.category = 60 := by rw [hc]; rfl
  have e6 : score_hidden_file f.isHidden = 40 := by rw [hh]; rfl
  have hfs := score_file_size_cases f.fileSize
  have hem := score_extension_mismatch_cases f.extension c.category
  set s4 := score_file_size f.fileSize with hs4
  set s5 := score_extension_mismatch f.extension c.category with hs5
  have hb4 : 0 ≤ s4 ∧ s4 ≤ 30 := by
    rcases hfs with h | h | h <;> rw [h] <;> norm_num
  have hb5 : 0 ≤ s5 ∧ s5 ≤ 100 := by
    rcases hem with h | h | h | h <;> rw [h] <;> norm_num
  have harg : (score_entropy (f.entropy.getD 0) * 20 +
      score_suspicious_strings f.strings * 25 +
      score_file_type c.category * 20 + s4 * 10 + s5 * 15 +
      score_hidden_file f.isHidden * 10) / 100 =
      (5100 + s4 * 10 + s5 * 15) / 100 := by
    rw [e1, e2, e3, e6]
    ring
  have hts : calculate_total_score
      [ ("entropy", score_entropy (f.entropy.getD 0)),
        ("suspicious_strings", score_suspicious_strings f.strings),
        ("file_type", score_file_type c.category),
        ("file_size", s4),
        ("extension_mismatch", s5),
        ("hidden_file", score_hidden_file f.isHidden) ] =
      (5100 + s4 * 10 + s5 * 15) / 100 := by
    rw [calculate_total_score_eq, harg]
    have hub : (5100 + s4 * 10 + s5 * 15) / 100 ≤ (100:ℚ) := by
      rw [div_le_iff₀ (by norm_num : (0:ℚ) < 100)]
      linarith [hb4.2, hb5.2]
    have hlb : (0:ℚ) ≤ (5100 + s4 * 10 + s5 * 15) / 100 := by
      apply div_nonneg _ (by norm_num)
      linarith [hb4.1, hb5.1]
    rw [max_eq_right hlb, min_eq_right hub]
  have hge : (51:ℚ) ≤ (5100 + s4 * 10 + s5 * 15) / 100 := by
    rw [le_div_iff₀ (by norm_num : (0:ℚ) < 100)]
    linarith [hb4.1, hb5.1]
  constructor
  · show (50:ℚ) < round2 (calculate_total_score _)
    rw [hts]
    have h51 := round2_ge (a := 51) (by exact_mod_cast hge)
    have hc51 : ((51:ℤ):ℚ) = 51 := by norm_num
    linarith [h51]
  · show decide (calculate_total_score _ ≥ 50) = true
    rw [hts]
    rw [decide_eq_true_eq]
    linarith [hge]

/-- Witness for `high_entropy_executable_is_malicious` at a concrete
feature set (file size 2048, extension `txt`). -/
theorem high_entropy_executable_is_malicious_witness :
    50 < (MaliciousScorer.score 50 75 scenarioFeatureSet
      scenarioClassification).score ∧
    (MaliciousScorer.score 50 75 scenarioFeatureSet
      scenarioClassification).isMalicious = true :=
  high_entropy_executable_is_malicious scenarioFeatureSet
    scenarioClassification rfl rfl rfl rfl

/-- C6: for every score in [0, 100] the risk level comes from the fixed
disjoint bands, inclusive on the lower edge and exclusive on the upper:
[0,25) low, [25,50) medium, [50,75) high, [75,100] critical (100 falls
through the table and hits the `'critical'` fallback). -/
theorem risk_level_fixed_bands :
    ∀ s : ℚ, 0 ≤ s → s ≤ 100 →
      determine_risk_level s =
        (if s < 25 then "low" else if s < 50 then "medium"
         else if s < 75 then "high" else "critical") := by
  intro s h0 h100
  unfold determine_risk_level
  rw [show RISK_LEVELS = [("low", ((0:ℚ), (25:ℚ))), ("medium", (25, 50)),
    ("high", (50, 75)), ("critical", (75, 100))] from rfl]
  rcases lt_or_le s 25 with h1 | h1
  · have hp : (decide ((0:ℚ) ≤ s ∧ s < 25)) = true := by simp [h0, h1]
    simp only [List.find?, hp]
    simp [h1]
  · have hn1 : (decide ((0:ℚ) ≤ s ∧ s < 25)) = false := by
      simp only [decide_eq_false_iff_not]
      rintro ⟨-, hlt⟩
      linarith
    rcases lt_or_le s 50 with h2 | h2
    · have hp : (decide ((25:ℚ) ≤ s ∧ s < 50)) = true := by simp [h1, h2]
      simp only [List.find?, hn1, hp]
      rw [if_neg (by linarith), if_pos h2]
    · have hn2 : (decide ((25:ℚ) ≤ s ∧ s < 50)) = false := by
        simp only [decide_eq_false_iff_not]
        rintro ⟨-, hlt⟩
        linarith
      rcases lt_or_le s 75 with h3 | h3
      · have hp : (decide ((50:ℚ) ≤ s ∧ s < 75)) = true := by simp [h2, h3]
        simp only [List.find?, hn1, hn2, hp]
        rw [if_neg (by linarith), if_neg (by linarith), if_pos h3]
      · have hn3 : (decide ((50:ℚ) ≤ s ∧ s < 75)) = false := by
          simp only [decide_eq_false_iff_not]
          rintro ⟨-, hlt⟩
          linarith
        rcases lt_or_le s 100 with h4 | h4
        · have hp : (decide ((75:ℚ) ≤ s ∧ s < 100)) = true := by
            simp [h3, h4]
          simp only [List.find?, hn1, hn2, hn3, hp]
          rw [if_neg (by linarith), if_neg (by linarith),
            if_neg (by linarith)]
        · have hn4 : (decide ((75:ℚ) ≤ s ∧ s < 100)) = false := by
            simp only [decide_eq_false_iff_not]
            rintro ⟨-, hlt⟩
            linarith
          simp only [List.find?, hn1, hn2, hn3, hn4]
          rw [if_neg (by linarith), if_neg (by linarith),
            if_neg (by linarith)]

/-- Witness for `risk_level_fixed_bands` at the band edges 25 and
100. -/
theorem risk_level_fixed_bands_witness :
    determine_risk_level 25 = "medium" ∧
    determine_risk_level 100 = "critical" := by
  have h1 := risk_level_fixed_bands 25 (by norm_num) (by norm_num)
  have h2 := risk_level_fixed_bands 100 (by norm_num) (by norm_num)
  norm_num at h1 h2
  exact ⟨h1, h2⟩

/-- C2: the claim says a file larger than 1 MiB gets the entropy of its
first 1 MiB.  The code instead returns `0.0` for every such file: it
passes `max_size = read_size = 1 MiB` to `safe_read_file`, which raises
because the file is larger, and the handler returns `0.0`.  At the
failing input — 1 MiB + 1 bytes whose first 1 MiB holds two byte values
in equal counts — the code yields entropy `0` while the spec-modelled
bounded-prefix entropy is exactly `1`. -/
theorem entropy_zero_beyond_one_mib :
    calculate_entropy overMiBContent = 0 ∧
    entropy_spec overMiBContent = 1 := by
  constructor
  · exact calculate_entropy_over_limit overMiBContent
      (by rw [overMiB_length]; norm_num)
  · unfold entropy_spec
    rw [overMiB_take, if_neg halfNotEmpty, shannon_two_uniform]
    unfold roundTo3
    rw [one_mul]
    rw [show (1000:ℝ) = ((1000:ℤ):ℝ) by norm_num, round_intCast]
    norm_num

lemma foldl_append_filter (P : List Char → Bool) :
    ∀ (l acc : List (List Char)),
      l.foldl (fun a s => if P s then a ++ [s] else a) acc =
        acc ++ l.filter P := by
  intro l
  induction l with
  | nil => intro acc; simp
  | cons h t ih =>
    intro acc
    rw [List.foldl_cons, List.filter_cons]
    by_cases hp : P h = true
    · rw [if_pos hp, ih, if_pos hp]
      simp
    · rw [if_neg hp, ih]
      simp [hp]

/-- C10: the bare keyword `'sh'` acts as a substring pattern: every
string whose lower-cased form contains `sh` anywhere satisfies the
per-string keyword check, and the detector returns exactly the matching
strings capped at 20 entries. -/
theorem sh_keyword_matches_any_containing_string :
    (∀ s : List Char, strHasSub (lowerStr s) "sh".data = true →
      matchesSuspicious s = true) ∧
    (∀ strings : List (List Char),
      detect_suspicious_patterns strings =
        (strings.filter matchesSuspicious).take 20) := by
  constructor
  · intro s h
    unfold matchesSuspicious
    rw [List.any_eq_true]
    exact ⟨"sh".data, by decide, h⟩
  · intro strings
    unfold detect_suspicious_patterns
    rw [foldl_append_filter]
    simp

/-- Witness for `sh_keyword_matches_any_containing_string` at the
benign strings `flash` and `finish`, and on a one-string input
list. -/
theorem sh_keyword_matches_any_containing_string_witness :
    matchesSuspicious "flash".data = true ∧
    matchesSuspicious "finish".data = true ∧
    detect_suspicious_patterns ["flash".data] =
      (["flash".data].filter matchesSuspicious).take 20 :=
  ⟨sh_keyword_matches_any_containing_string.1 "flash".data (by decide),
   sh_keyword_matches_any_containing_string.1 "finish".data (by decide),
   sh_keyword_matches_any_containing_string.2 ["flash".data]⟩

lemma foldl_analyze_all_ok (cfg : AnalyzerConfig) :
    ∀ (files : List FileData)
      (acc : List AnalysisRecord × List (String × String)),
      (∀ f ∈ files, f.readable = true) →
      files.foldl
        (fun (a : List AnalysisRecord × List (String × String)) f =>
          match analyze_file cfg f with
          | Except.ok r => (a.1 ++ [r], a.2)
          | Except.error e => (a.1, a.2 ++ [(f.path, e)])) acc =
      (acc.1 ++ files.map (okRecord cfg), acc.2) := by
  intro files
  induction files with
  | nil => intro acc h; simp
  | cons f t ih =>
    intro acc h
    have hf : f.readable = true := h f (List.mem_cons_self f t)
    rw [List.foldl_cons]
    have hok : analyze_file cfg f = Except.ok (okRecord cfg f) := by
      unfold analyze_file
      rw [hf]
      simp
    rw [hok]
    rw [ih _ (fun g hg => h g (List.mem_cons_of_mem f hg))]
    simp

/-- C7: for a directory holding any number of analyzable files and one
file whose analysis fails, `analyze_directory` returns exactly the
successful results (one per analyzable file, statistics generated from
them alone) and exactly one error entry carrying the failing path and
the cause message; nothing is raised — the embedding is total. -/
theorem directory_error_isolation :
    ∀ (cfg : AnalyzerConfig) (dir : String) (pre post : List FileData)
      (bad : FileData),
      (∀ f ∈ pre, f.readable = true) → (∀ f ∈ post, f.readable = true) →
      bad.readable = false →
      (analyze_directory cfg dir (pre ++ bad :: post)).results =
          (pre ++ post).map (okRecord cfg) ∧
      (analyze_directory cfg dir (pre ++ bad :: post)).totalFiles =
          pre.length + post.length ∧
      (analyze_directory cfg dir (pre ++ bad :: post)).errors = 1 ∧
      (analyze_directory cfg dir (pre ++ bad :: post)).errorDetails =
          [(bad.path, analyzeFailMessage bad.path)] ∧
      (analyze_directory cfg dir (pre ++ bad :: post)).summary =
          generate_summary ((pre ++ post).map (okRecord cfg)) := by
  intro cfg dir pre post bad hpre hpost hbad
  have herr : analyze_file cfg bad =
      Except.error (analyzeFailMessage bad.path) := by
    unfold analyze_file
    rw [hbad]
    simp
  have hfold : (pre ++ bad :: post).foldl
      (fun (a : List AnalysisRecord × List (String × String)) f =>
        match analyze_file cfg f with
        | Except.ok r => (a.1 ++ [r], a.2)
        | Except.error e => (a.1, a.2 ++ [(f.path, e)])) ([], []) =
      ((pre ++ post).map (okRecord cfg),
        [(bad.path, analyzeFailMessage bad.path)]) := by
    rw [List.foldl_append, foldl_analyze_all_ok cfg pre _ hpre]
    rw [List.foldl_cons, herr]
    rw [foldl_analyze_all_ok cfg post _ hpost]
    simp
  unfold analyze_directory
  rw [hfold]
  refine ⟨rfl, ?_, rfl, rfl, rfl⟩
  simp

/-- Witness for `directory_error_isolation`: one readable file and one
unreadable file. -/
theorem directory_error_isolation_witness :
    (analyze_directory defaultConfig "/tmp/dir"
      [plainFile, unreadableFile]).totalFiles = 1 ∧
    (analyze_directory defaultConfig "/tmp/dir"
      [plainFile, unreadableFile]).errors = 1 ∧
    (analyze_directory defaultConfig "/tmp/dir"
      [plainFile, unreadableFile]).errorDetails =
      [(unreadableFile.path, analyzeFailMessage unreadableFile.path)] := by
  have h := directory_error_isolation defaultConfig "/tmp/dir" [plainFile]
    [] unreadableFile (by decide) (by decide) (by decide)
  exact ⟨h.2.1, h.2.2.1, h.2.2.2.1⟩

/-- C8: the pipeline is deterministic and stateless: two runs of
`analyze_file` on the same unchanged file data return the same result,
in particular identical feature dicts and identical score dicts. -/
theorem pipeline_runs_deterministic :
    ∀ (cfg : AnalyzerConfig) (fd : FileData) (r1 r2 : AnalysisRecord),
      analyze_file cfg fd = Except.ok r1 →
      analyze_file cfg fd = Except.ok r2 →
      r1.features = r2.features ∧ r1.scoring = r2.scoring := by
  intro cfg fd r1 r2 h1 h2
  rw [h1] at h2
  have h3 : r1 = r2 := by
    injection h2
  rw [h3]
  exact ⟨rfl, rfl⟩

/-- Witness for `pipeline_runs_deterministic` at a concrete readable
file under the default configuration. -/
theorem pipeline_runs_deterministic_witness :
    (okRecord defaultConfig plainFile).features =
      (okRecord defaultConfig plainFile).features ∧
    (okRecord defaultConfig plainFile).scoring =
      (okRecord defaultConfig plainFile).scoring :=
  pipeline_runs_deterministic defaultConfig plainFile _ _ rfl rfl
